import Mathlib

/-!
Verification of the replion-backend automation engine
(`src/services/automation-engine.service.ts` and the keyword matcher shared by
`src/services/webhook.subscription.service.ts` and the webhook controller).

The TypeScript service is shallowly embedded: database state is a `DB` record,
external platform calls are recorded in a trace, and the outcomes of fallible
external operations (AI generation, send-DM, reply-to-comment) are supplied by
an `Env` oracle.  JavaScript quirks are embedded faithfully, in particular
truthiness tests (`if (automation.dailyLimit)` is false for both `null` and
`0`, `if (response.customMessage)` is false for the empty string) and the
`Date` mutation in `checkLimits`.
-/

namespace Replion

/-- Outcome recorded on an `AutomationLog` row (`status` column). -/
inductive Status
  | SUCCESS
  | FAILED
  | SKIPPED
deriving DecidableEq, Repr

/-- A `Keyword` record as loaded with a trigger (`keyword`, `matchType`,
`caseSensitive` columns). -/
structure Keyword where
  keyword : String
  matchType : String
  caseSensitive : Bool
deriving DecidableEq, Repr

/-- A `Response` record (`responseType`, `customMessage`, `aiPrompt`). -/
structure Response where
  responseType : String
  customMessage : Option String
  aiPrompt : Option String
deriving DecidableEq, Repr

/-- The loosely typed per-trigger `config` JSON object; the engine only reads
its optional `commentReply` field. -/
structure TriggerConfig where
  commentReply : Option String
deriving DecidableEq, Repr

/-- An `AutomationTrigger` with its preloaded keyword and response. -/
structure Trigger where
  keyword : Option Keyword
  response : Option Response
  config : TriggerConfig
  isActive : Bool
deriving DecidableEq, Repr

/-- The normalized comment event consumed by the engine. -/
structure Comment where
  id : String
  text : String
  username : String
  timestamp : String
  fromId : String
  fromUsername : String
deriving DecidableEq, Repr

/-- An `Automation` row with its loaded relations; `dailyLimit`/`hourlyLimit`
are nullable integers (`INTEGER` columns), `userPlan` is the owning user's
plan, `triggers` the stored trigger list (in stored order). -/
structure Automation where
  id : String
  status : String
  dailyLimit : Option Nat
  hourlyLimit : Option Nat
  userPlan : String
  triggers : List Trigger
  totalExecutions : Nat
  successfulExecutions : Nat
  failedExecutions : Nat
  lastExecutedAt : Option Nat
deriving DecidableEq, Repr

/-- An `AutomationLog` row as written by `createLog` (metadata JSON flattened
into the `meta*` fields; `executedAt` in minutes of server local time). -/
structure LogEntry where
  automationId : String
  action : String
  targetId : String
  targetUsername : String
  targetType : String
  status : Status
  message : String
  responseText : Option String
  metaCommentText : String
  metaTimestamp : String
  metaUserId : String
  executedAt : Nat
deriving DecidableEq, Repr

/-- The persistent state touched by the engine: the automation row and the
`AutomationLog` table. -/
structure DB where
  automation : Automation
  logs : List LogEntry
deriving Repr

/-- An external platform / AI call attempted by the engine (recorded even when
the call throws). -/
inductive ExtCall
  | aiGenerate (commentText username : String)
  | sendDM (recipientId text : String)
  | replyComment (commentId text : String)
deriving DecidableEq, Repr

/-- Oracle for the ambient world of one engine invocation: the clock (minutes
of server local time, plus the `toLocaleTimeString()` rendering used by the
`\x7btime\x7d` placeholder) and the outcomes of the fallible external
operations (`none` = the call succeeds, `some msg` = it throws `msg`). -/
structure Env where
  now : Nat
  timeString : String
  aiResult : Except String String
  dmError : Option String
  replyError : Option String
deriving Repr

/-- Return value of `processSingleComment` (the `response`/`actions` fields
are only present on the success path). -/
structure Result where
  processed : Bool
  message : String
  response : Option String := none
  actions : List String := []
deriving DecidableEq, Repr

/-- Return value of the two batch processing functions. -/
structure BatchResult where
  processed : Nat
  successful : Nat
  failed : Nat
  message : String
deriving DecidableEq, Repr

/-- Abstract JavaScript regex engine: pattern, ignore-case flag, text;
`none` models a pattern that fails to compile (`new RegExp` throwing). -/
def RegexEngine := String → Bool → String → Option Bool

/-- Does `pat` occur as a contiguous run inside `hay`? -/
def containsSeq (pat : List Char) : List Char → Bool
  | [] => pat.isEmpty
  | c :: rest => pat.isPrefixOf (c :: rest) || containsSeq pat rest

/-- JavaScript `String.prototype.includes`. -/
def strContains (s pat : String) : Bool :=
  containsSeq pat.data s.data

/-- JavaScript `String.prototype.startsWith`. -/
def strStartsWith (s pat : String) : Bool :=
  pat.data.isPrefixOf s.data

/-- JavaScript `String.prototype.endsWith`. -/
def strEndsWith (s pat : String) : Bool :=
  pat.data.reverse.isPrefixOf s.data.reverse

/-- JavaScript `String.prototype.toLowerCase`, embedded as per-character
lowering of the code points (the engine's keywords and comments are plain
text, for which the two agree). -/
def jsToLower (s : String) : String :=
  String.mk (s.data.map Char.toLower)

/-- Whitespace for the purpose of `String.prototype.trim`. -/
def isJsWhitespace (c : Char) : Bool :=
  c == ' ' || c == '\t' || c == '\n' || c == '\r'

/-- JavaScript `String.prototype.trim`. -/
def jsTrim (s : String) : String :=
  String.mk (((s.data.dropWhile isJsWhitespace).reverse.dropWhile isJsWhitespace).reverse)

/-- Left-to-right, non-overlapping global replacement of the (non-empty)
literal `pat` by `rep`; the replacement text is not rescanned.  The fuel
argument (instantiated with the text length) only drives structural
recursion and never runs out for a non-empty `pat`. -/
def replaceFuel (pat rep : List Char) : Nat → List Char → List Char
  | 0, l => l
  | _ + 1, [] => []
  | fuel + 1, c :: rest =>
    if pat.isPrefixOf (c :: rest) then
      rep ++ replaceFuel pat rep fuel (List.drop (pat.length - 1) rest)
    else
      c :: replaceFuel pat rep fuel rest

/-- JavaScript `template.replace(/pat/g, rep)` for a literal pattern. -/
def jsReplaceAll (s pat rep : String) : String :=
  String.mk (replaceFuel pat.data rep.data s.data.length s.data)

/-- Truthiness of a nullable JavaScript string (both `null`/`undefined` and
the empty string are falsy). -/
def strTruthy : Option String → Bool
  | none => false
  | some s => s != ""

/-- Truthiness of a nullable JavaScript number (both `null` and `0` are
falsy). -/
def numTruthy : Option Nat → Bool
  | none => false
  | some n => n != 0

/-- `matchKeyword` from `webhook.subscription.service.ts` (identical copy in
the webhook controller): case-normalize text and keyword unless
`caseSensitive`, then dispatch on the `matchType` string; REGEX compiles the
raw keyword with the `i` flag when not case sensitive and a compile failure
yields `false`; any other matchType falls to the `default:` CONTAINS branch. -/
def matchKeyword (rx : RegexEngine) (text keyword matchType : String)
    (caseSensitive : Bool) : Bool :=
  let searchText := if caseSensitive then text else jsToLower text
  let searchKeyword := if caseSensitive then keyword else jsToLower keyword
  if matchType == "EXACT" then searchText == searchKeyword
  else if matchType == "CONTAINS" then strContains searchText searchKeyword
  else if matchType == "STARTS_WITH" then strStartsWith searchText searchKeyword
  else if matchType == "ENDS_WITH" then strEndsWith searchText searchKeyword
  else if matchType == "REGEX" then (rx keyword (!caseSensitive) text).getD false
  else strContains searchText searchKeyword

/-- Match modes named by the specification (section 4.1). -/
inductive MatchMode
  | EXACT
  | CONTAINS
  | STARTS_WITH
  | ENDS_WITH
  | REGEX
deriving DecidableEq, Repr

/-- Modelled from the spec: the mode named by a `matchType` string, with an
unknown or unspecified mode defaulting to CONTAINS (section 4.1). -/
def specMode (matchType : String) : MatchMode :=
  if matchType == "EXACT" then .EXACT
  else if matchType == "CONTAINS" then .CONTAINS
  else if matchType == "STARTS_WITH" then .STARTS_WITH
  else if matchType == "ENDS_WITH" then .ENDS_WITH
  else if matchType == "REGEX" then .REGEX
  else .CONTAINS

/-- Modelled from the spec (section 4.1 wording, for comparison with the
code): normalize case on both text and pattern unless `caseSensitive`; EXACT
is full-string equality, CONTAINS substring, STARTS_WITH / ENDS_WITH the
prefix / suffix tests; REGEX compiles the raw (non-normalized) keyword with a
case-insensitivity modifier when `caseSensitive` is false and treats a
non-compiling pattern as non-matching. -/
def matchKeywordSpec (rx : RegexEngine) (text keyword matchType : String)
    (caseSensitive : Bool) : Bool :=
  let normText := if caseSensitive then text else jsToLower text
  let normKeyword := if caseSensitive then keyword else jsToLower keyword
  match specMode matchType with
  | .EXACT => normText == normKeyword
  | .CONTAINS => strContains normText normKeyword
  | .STARTS_WITH => strStartsWith normText normKeyword
  | .ENDS_WITH => strEndsWith normText normKeyword
  | .REGEX => (rx keyword (!caseSensitive) text).getD false

/-- Does a trigger's (optional) keyword match the comment text?  This is the
loop body test of `findMatchingTrigger`: a trigger with no keyword never
matches. -/
def triggerMatches (rx : RegexEngine) (commentText : String) (t : Trigger) : Bool :=
  match t.keyword with
  | none => false
  | some k => matchKeyword rx commentText k.keyword k.matchType k.caseSensitive

/-- `findMatchingTrigger` from `automation-engine.service.ts`: scan the
trigger list in order and return the first trigger whose keyword matches. -/
def findMatchingTrigger (rx : RegexEngine) (commentText : String) :
    List Trigger → Option Trigger
  | [] => none
  | t :: ts =>
    if triggerMatches rx commentText t then some t
    else findMatchingTrigger rx commentText ts

/-- `aiService.isAIEnabled`: AI responses are gated on the PRO and ENTERPRISE
plans. -/
def isAIEnabled (userPlan : String) : Bool :=
  userPlan == "PRO" || userPlan == "ENTERPRISE"

/-- `personalizeMessage`: global replacement of the three placeholders, in the
same chained order as the source. -/
def personalizeMessage (env : Env) (template : String) (c : Comment) : String :=
  jsReplaceAll (jsReplaceAll (jsReplaceAll template "{username}" c.username)
    "{comment}" c.text) "{time}" env.timeString

/-- `generateResponse`: resolve the trigger's response into outbound text, or
the message of the error it throws.  Also returns the external AI-generation
calls it attempts.  JavaScript truthiness: a CUSTOM response whose
`customMessage` is null or empty falls through to the invalid-type error. -/
def generateResponse (env : Env) (trigger : Trigger) (c : Comment)
    (userPlan : String) : Except String String × List ExtCall :=
  match trigger.response with
  | none => (.error "No response configured for trigger", [])
  | some r =>
    if r.responseType == "CUSTOM" && strTruthy r.customMessage then
      (.ok (personalizeMessage env (r.customMessage.getD "") c), [])
    else if r.responseType == "AI_GENERATED" then
      if !isAIEnabled userPlan then
        (.error "AI responses require PRO plan", [])
      else
        (env.aiResult, [.aiGenerate c.text c.username])
    else
      (.error "Invalid response type", [])

/-- Start of the current calendar day, with time in minutes of server local
time (1440 minutes per day). -/
def dayStart (now : Nat) : Nat := now - now % 1440

/-- Number of SUCCESS logs of this automation whose `executedAt` is at or
after `t` (the `prisma.automationLog.count` query of `checkLimits`). -/
def countSuccessSince (logs : List LogEntry) (aId : String) (t : Nat) : Nat :=
  (logs.filter fun l =>
    l.automationId == aId && l.status == Status.SUCCESS && decide (t ≤ l.executedAt)).length

/-- `checkLimits`: true when the automation may still execute. The source
mutates a single `Date`: `now.setHours(0,0,0,0)` rewinds `now` itself to
midnight before `now.setMinutes(0,0,0)` runs, so the "start of hour" value it
computes is again midnight — both windows begin at the day boundary.  A limit
that is null or `0` is falsy and its check is skipped entirely. -/
def checkLimits (a : Automation) (logs : List LogEntry) (now : Nat) : Bool :=
  let startOfDay := dayStart now
  let startOfHour := dayStart now
  let dailyOk :=
    if numTruthy a.dailyLimit then
      decide (countSuccessSince logs a.id startOfDay < a.dailyLimit.getD 0)
    else true
  let hourlyOk :=
    if numTruthy a.hourlyLimit then
      decide (countSuccessSince logs a.id startOfHour < a.hourlyLimit.getD 0)
    else true
  dailyOk && hourlyOk

/-- Does an optional string contain `pat` (`responseText?.includes(...)`;
null yields false)? -/
def optContains (o : Option String) (pat : String) : Bool :=
  match o with
  | none => false
  | some s => strContains s pat

/-- `createLog`: build the `AutomationLog` row.  The `action` column is
derived from the status: SUCCESS rows get `sent_dm` when the response text
contains the substring `DM` and `replied_comment` otherwise; FAILED and
SKIPPED rows always get `skipped_comment`. -/
def createLog (aId : String) (c : Comment) (status : Status)
    (responseText : Option String) (message : String) (now : Nat) : LogEntry :=
  let action :=
    match status with
    | .SUCCESS => if optContains responseText "DM" then "sent_dm" else "replied_comment"
    | _ => "skipped_comment"
  { automationId := aId
    action := action
    targetId := c.id
    targetUsername := c.username
    targetType := "comment"
    status := status
    message := message
    responseText := responseText
    metaCommentText := c.text
    metaTimestamp := c.timestamp
    metaUserId := c.fromId
    executedAt := now }

/-- Insert a new `AutomationLog` row. -/
def addLog (db : DB) (l : LogEntry) : DB :=
  { db with logs := db.logs ++ [l] }

/-- `updateAutomationStats`: bump `totalExecutions`, one of the two outcome
counters, and `lastExecutedAt`. -/
def updateAutomationStats (db : DB) (success : Bool) (now : Nat) : DB :=
  let a := db.automation
  { db with
    automation :=
      { a with
        totalExecutions := a.totalExecutions + 1
        successfulExecutions := a.successfulExecutions + (if success then 1 else 0)
        failedExecutions := a.failedExecutions + (if success then 0 else 1)
        lastExecutedAt := some now } }

/-- The `findFirst` idempotency query: does a log for this
(automationId, targetId) pair already exist? -/
def hasPairLog (logs : List LogEntry) (aId targetId : String) : Bool :=
  logs.any fun l => l.automationId == aId && l.targetId == targetId

/-- Number of log rows for one (automationId, targetId) pair. -/
def countPairLogs (logs : List LogEntry) (aId targetId : String) : Nat :=
  (logs.filter fun l => l.automationId == aId && l.targetId == targetId).length

/-- The trigger list as loaded by the engine's queries
(`where: \x7b isActive: true \x7d`). -/
def activeTriggers (a : Automation) : List Trigger :=
  a.triggers.filter (·.isActive)

/-- Is the optional comment-reply action configured on the matched trigger
(`if (commentReplyText && commentReplyText.trim())`)? -/
def replyConfigured (t : Trigger) : Bool :=
  match t.config.commentReply with
  | none => false
  | some s => s != "" && jsTrim s != ""

/-- Intermediate state of the dual-action block of `processSingleComment`:
database, attempted external calls, the `actions` and `responses` arrays, and
the `errorMessage` recorded by a DM failure. -/
structure DualState where
  db : DB
  calls : List ExtCall
  actions : List String
  responses : List String
  errMsg : String
deriving Repr

/-- ACTION 1 of `processSingleComment` (mandatory DM): generate the response
and send the DM; a throw from either is caught and recorded as a FAILED log
with message `DM failed: ...`. -/
def dmStep (env : Env) (db : DB) (c : Comment) (trig : Trigger) : DualState :=
  let a := db.automation
  let gen := generateResponse env trig c a.userPlan
  match gen.1 with
  | .error e =>
    { db := addLog db (createLog a.id c .FAILED none ("DM failed: " ++ e) env.now)
      calls := gen.2
      actions := []
      responses := []
      errMsg := e }
  | .ok dmResponse =>
    match env.dmError with
    | none =>
      { db := db
        calls := gen.2 ++ [.sendDM c.fromId dmResponse]
        actions := ["sent_dm"]
        responses := ["DM: " ++ dmResponse]
        errMsg := "" }
    | some e =>
      { db := addLog db (createLog a.id c .FAILED none ("DM failed: " ++ e) env.now)
        calls := gen.2 ++ [.sendDM c.fromId dmResponse]
        actions := []
        responses := []
        errMsg := e }

/-- ACTION 2 of `processSingleComment` (optional comment reply): only
attempted when the trigger config carries a non-empty reply template; a throw
is caught and logged with status SUCCESS when the DM already succeeded and
FAILED otherwise. -/
def replyStep (env : Env) (c : Comment) (trig : Trigger) (aId : String)
    (s : DualState) : DualState :=
  if replyConfigured trig then
    let personalizedReply :=
      personalizeMessage env (trig.config.commentReply.getD "") c
    match env.replyError with
    | none =>
      { s with
        calls := s.calls ++ [.replyComment c.id personalizedReply]
        actions := s.actions ++ ["replied_comment"]
        responses := s.responses ++ ["Comment: " ++ personalizedReply] }
    | some e =>
      { s with
        db := addLog s.db (createLog aId c
          (if s.actions.length > 0 then .SUCCESS else .FAILED)
          (some (String.intercalate " | " s.responses))
          ("Comment reply failed: " ++ e ++
            (if s.actions.length > 0 then " (DM sent successfully)" else ""))
          env.now)
        calls := s.calls ++ [.replyComment c.id personalizedReply] }
  else s

/-- The dual-action block plus the FINAL RESULT block of
`processSingleComment`: when no action succeeded the failure is counted and
reported; otherwise a SUCCESS log is written and the success counted. -/
def dualAction (env : Env) (db : DB) (c : Comment) (trig : Trigger) :
    Result × DB × List ExtCall :=
  let a := db.automation
  let s := replyStep env c trig a.id (dmStep env db c trig)
  if s.actions.isEmpty then
    ({ processed := false, message := "Failed: " ++ s.errMsg },
      updateAutomationStats s.db false env.now, s.calls)
  else
    let db3 := addLog s.db (createLog a.id c .SUCCESS
      (some (String.intercalate " | " s.responses))
      ("Actions completed: " ++ String.intercalate ", " s.actions) env.now)
    ({ processed := true
       message := "Success: " ++ String.intercalate " + " s.actions
       response := some (String.intercalate " | " s.responses)
       actions := s.actions },
      updateAutomationStats db3 true env.now, s.calls)

/-- `processSingleComment`: the per-comment webhook entry point.  Returns the
result object, the updated database and the trace of attempted external
calls. -/
def processSingleComment (rx : RegexEngine) (env : Env) (db : DB) (c : Comment) :
    Result × DB × List ExtCall :=
  let a := db.automation
  if a.status != "ACTIVE" then
    ({ processed := false, message := "Automation not active" }, db, [])
  else if hasPairLog db.logs a.id c.id then
    ({ processed := false, message := "Already processed" }, db, [])
  else
    match findMatchingTrigger rx c.text (activeTriggers a) with
    | none =>
      ({ processed := false, message := "No keyword match" },
        addLog db (createLog a.id c .SKIPPED none "No keyword match" env.now), [])
    | some matchedTrigger =>
      if !checkLimits a db.logs env.now then
        ({ processed := false, message := "Rate limit reached" }, db, [])
      else
        dualAction env db c matchedTrigger

/-- Loop state of the two batch processing functions: database, attempted
external calls, and the three counters. -/
structure LoopState where
  db : DB
  calls : List ExtCall
  processed : Nat
  successful : Nat
  failed : Nat
deriving Repr

/-- One iteration of the `processCommentToDMAutomation` comment loop.  A
throw from `generateResponse` or `sendDirectMessage` is caught by the
per-comment `catch`, which writes a FAILED log, bumps `failed` and the failure
stats; only the full success path bumps `successful` and `processed`. -/
def dmLoopStep (rx : RegexEngine) (s : LoopState) (item : Comment × Env) :
    LoopState :=
  let c := item.1
  let env := item.2
  let a := s.db.automation
  if hasPairLog s.db.logs a.id c.id then s
  else
    match findMatchingTrigger rx c.text (activeTriggers a) with
    | none =>
      { s with db := addLog s.db (createLog a.id c .SKIPPED none "No keyword match" env.now) }
    | some matchedTrigger =>
      let gen := generateResponse env matchedTrigger c a.userPlan
      match gen.1 with
      | .error e =>
        { s with
          db := updateAutomationStats
            (addLog s.db (createLog a.id c .FAILED none e env.now)) false env.now
          calls := s.calls ++ gen.2
          failed := s.failed + 1 }
      | .ok responseText =>
        match env.dmError with
        | some e =>
          { s with
            db := updateAutomationStats
              (addLog s.db (createLog a.id c .FAILED none e env.now)) false env.now
            calls := s.calls ++ gen.2 ++ [.sendDM c.fromId responseText]
            failed := s.failed + 1 }
        | none =>
          { s with
            db := updateAutomationStats
              (addLog s.db (createLog a.id c .SUCCESS (some responseText)
                ("DM sent to @" ++ c.username) env.now)) true env.now
            calls := s.calls ++ gen.2 ++ [.sendDM c.fromId responseText]
            successful := s.successful + 1
            processed := s.processed + 1 }

/-- One iteration of the `processCommentReplyAutomation` comment loop; same
shape as `dmLoopStep` but the external action is `replyToComment` (whose
outcome the oracle supplies in `replyError`). -/
def replyLoopStep (rx : RegexEngine) (s : LoopState) (item : Comment × Env) :
    LoopState :=
  let c := item.1
  let env := item.2
  let a := s.db.automation
  if hasPairLog s.db.logs a.id c.id then s
  else
    match findMatchingTrigger rx c.text (activeTriggers a) with
    | none =>
      { s with db := addLog s.db (createLog a.id c .SKIPPED none "No keyword match" env.now) }
    | some matchedTrigger =>
      let gen := generateResponse env matchedTrigger c a.userPlan
      match gen.1 with
      | .error e =>
        { s with
          db := updateAutomationStats
            (addLog s.db (createLog a.id c .FAILED none e env.now)) false env.now
          calls := s.calls ++ gen.2
          failed := s.failed + 1 }
      | .ok responseText =>
        match env.replyError with
        | some e =>
          { s with
            db := updateAutomationStats
              (addLog s.db (createLog a.id c .FAILED none e env.now)) false env.now
            calls := s.calls ++ gen.2 ++ [.replyComment c.id responseText]
            failed := s.failed + 1 }
        | none =>
          { s with
            db := updateAutomationStats
              (addLog s.db (createLog a.id c .SUCCESS (some responseText)
                "Comment replied successfully" env.now)) true env.now
            calls := s.calls ++ gen.2 ++ [.replyComment c.id responseText]
            successful := s.successful + 1
            processed := s.processed + 1 }

/-- `processCommentToDMAutomation`: batch path over the comments fetched for
a post (each comment paired with the ambient-world oracle for its
iteration). -/
def processCommentToDMAutomation (rx : RegexEngine) (now : Nat) (db : DB)
    (items : List (Comment × Env)) : BatchResult × DB × List ExtCall :=
  let a := db.automation
  if a.status != "ACTIVE" then
    ({ processed := 0, successful := 0, failed := 0, message := "Automation not active" },
      db, [])
  else if !checkLimits a db.logs now then
    ({ processed := 0, successful := 0, failed := 0, message := "Rate limit reached" },
      db, [])
  else
    let final := items.foldl (dmLoopStep rx)
      { db := db, calls := [], processed := 0, successful := 0, failed := 0 }
    ({ processed := final.processed
       successful := final.successful
       failed := final.failed
       message := "Processed " ++ toString final.processed ++ " comments, sent " ++
         toString final.successful ++ " DMs" },
      final.db, final.calls)

/-- `processCommentReplyAutomation`: batch path replying to comments. -/
def processCommentReplyAutomation (rx : RegexEngine) (now : Nat) (db : DB)
    (items : List (Comment × Env)) : BatchResult × DB × List ExtCall :=
  let a := db.automation
  if a.status != "ACTIVE" then
    ({ processed := 0, successful := 0, failed := 0, message := "Automation not active" },
      db, [])
  else if !checkLimits a db.logs now then
    ({ processed := 0, successful := 0, failed := 0, message := "Rate limit reached" },
      db, [])
  else
    let final := items.foldl (replyLoopStep rx)
      { db := db, calls := [], processed := 0, successful := 0, failed := 0 }
    ({ processed := final.processed
       successful := final.successful
       failed := final.failed
       message := "Processed " ++ toString final.processed ++ " comments, replied to " ++
         toString final.successful },
      final.db, final.calls)

/-! Concrete fixtures, mirroring the end-to-end scenario of the spec
(keyword "cost", CONTAINS, case-insensitive; CUSTOM response
"Thanks \x7busername\x7d, check your DMs!"). -/

/-- A regex engine in which no pattern compiles; the CONTAINS fixtures never
consult it. -/
def rxNone : RegexEngine := fun _ _ _ => none

/-- Keyword "cost", CONTAINS, case-insensitive. -/
def kwCost : Keyword := { keyword := "cost", matchType := "CONTAINS", caseSensitive := false }

/-- A CUSTOM response with the spec's template. -/
def respCustom : Response :=
  { responseType := "CUSTOM"
    customMessage := some "Thanks {username}, check your DMs!"
    aiPrompt := none }

/-- Active trigger with keyword and response but no comment-reply template. -/
def trigPlain : Trigger :=
  { keyword := some kwCost, response := some respCustom
    config := { commentReply := none }, isActive := true }

/-- Active trigger that additionally configures the optional public reply. -/
def trigWithReply : Trigger :=
  { keyword := some kwCost, response := some respCustom
    config := { commentReply := some "thanks!" }, isActive := true }

/-- The spec's example comment. -/
def buyerComment : Comment :=
  { id := "c1", text := "How much does it cost?", username := "buyer1"
    timestamp := "2026-01-01T10:00:00Z", fromId := "u1", fromUsername := "buyer1" }

/-- An ACTIVE automation with the given caps and triggers and zeroed
counters. -/
def mkAuto (dl hl : Option Nat) (ts : List Trigger) : Automation :=
  { id := "a1", status := "ACTIVE", dailyLimit := dl, hourlyLimit := hl
    userPlan := "FREE", triggers := ts
    totalExecutions := 0, successfulExecutions := 0, failedExecutions := 0
    lastExecutedAt := none }

/-- Oracle at 02:30 of day zero in which every external call succeeds. -/
def envOk : Env :=
  { now := 150, timeString := "2:30:00 AM", aiResult := .error "unused"
    dmError := none, replyError := none }

/-- Same oracle but the send-DM call throws. -/
def envDMFail : Env := { envOk with dmError := some "DM boom" }

/-- Same oracle but the reply-to-comment call throws. -/
def envReplyFail : Env := { envOk with replyError := some "reply boom" }

/-- A SUCCESS log row of automation "a1" for another target, executed at
minute `t`. -/
def successLogAt (t : Nat) : LogEntry :=
  { automationId := "a1", action := "sent_dm", targetId := "c0"
    targetUsername := "other", targetType := "comment", status := .SUCCESS
    message := "DM sent to @other", responseText := some "DM: hi"
    metaCommentText := "earlier", metaTimestamp := "2026-01-01T00:30:00Z"
    metaUserId := "u0", executedAt := t }

/-- Keyword "price", CONTAINS, case-insensitive. -/
def kwPrice : Keyword := { keyword := "price", matchType := "CONTAINS", caseSensitive := false }

/-- Active trigger bound to the keyword "price". -/
def trigPrice : Trigger :=
  { keyword := some kwPrice, response := some respCustom
    config := { commentReply := none }, isActive := true }

/-- Start of the current clock hour, with time in minutes of server local
time. -/
def hourStart (now : Nat) : Nat := now - now % 60

/-- Modelled from the spec: the Rate Limiter of section 4.3 — a configured
daily cap compares the count of SUCCESS logs since the start of the current
calendar day, a configured hourly cap the count since the start of the
current clock hour, each strictly below its cap; an absent cap never
blocks. -/
def checkLimitsSpec (a : Automation) (logs : List LogEntry) (now : Nat) : Bool :=
  let dailyOk :=
    match a.dailyLimit with
    | none => true
    | some d => decide (countSuccessSince logs a.id (dayStart now) < d)
  let hourlyOk :=
    match a.hourlyLimit with
    | none => true
    | some h => decide (countSuccessSince logs a.id (hourStart now) < h)
  dailyOk && hourlyOk

/-- Did the mandatory DM action succeed: the response resolved without
throwing and the send-DM call did not throw. -/
def dmSucceeds (env : Env) (trig : Trigger) (c : Comment) (plan : String) : Bool :=
  (match (generateResponse env trig c plan).1 with
    | .ok _ => true
    | .error _ => false) && env.dmError.isNone

/-- Did the reply action of the reply-automation loop succeed: the response
resolved without throwing and the reply-to-comment call did not throw. -/
def replyCallSucceeds (env : Env) (trig : Trigger) (c : Comment) (plan : String) : Bool :=
  (match (generateResponse env trig c plan).1 with
    | .ok _ => true
    | .error _ => false) && env.replyError.isNone

/-! Helper lemmas shared by the claim theorems. -/

theorem addLog_automation (db : DB) (l : LogEntry) :
    (addLog db l).automation = db.automation := rfl

theorem updateAutomationStats_id (db : DB) (b : Bool) (n : Nat) :
    (updateAutomationStats db b n).automation.id = db.automation.id := rfl

theorem updateAutomationStats_status (db : DB) (b : Bool) (n : Nat) :
    (updateAutomationStats db b n).automation.status = db.automation.status := rfl

theorem countPairLogs_append (xs ys : List LogEntry) (aId cId : String) :
    countPairLogs (xs ++ ys) aId cId =
      countPairLogs xs aId cId + countPairLogs ys aId cId := by
  simp [countPairLogs, List.filter_append]

theorem countPairLogs_nil (aId cId : String) : countPairLogs [] aId cId = 0 := rfl

theorem countPairLogs_cons (l : LogEntry) (ls : List LogEntry) (aId cId : String) :
    countPairLogs (l :: ls) aId cId =
      (if l.automationId == aId && l.targetId == cId then 1 else 0) +
        countPairLogs ls aId cId := by
  unfold countPairLogs
  cases h : (l.automationId == aId && l.targetId == cId) <;>
    simp [List.filter_cons, h]
  omega

theorem countPairLogs_eq_zero (logs : List LogEntry) (aId cId : String)
    (h : hasPairLog logs aId cId = false) : countPairLogs logs aId cId = 0 := by
  induction logs with
  | nil => rfl
  | cons l ls ih =>
    simp only [hasPairLog, List.any_cons, Bool.or_eq_false_iff] at h
    have h2 : hasPairLog ls aId cId = false := h.2
    simp only [countPairLogs, List.filter_cons, h.1, if_false, Bool.false_eq_true]
    exact ih h2

/-- C7: `matchKeyword` lowercases both text and keyword when `caseSensitive`
is false and then applies full-string equality for EXACT, substring
containment for CONTAINS, the prefix test for STARTS_WITH, the suffix test
for ENDS_WITH; REGEX compiles the raw (non-normalized) keyword with the
case-insensitivity flag when `caseSensitive` is false and a non-compiling
pattern yields false; any unknown matchType behaves as CONTAINS.  Stated as
equivalence of the code's `matchKeyword` with the spec-worded
`matchKeywordSpec`, for every regex engine and every input quadruple. -/
theorem c7_matchKeyword_spec_equivalence :
    ∀ (rx : RegexEngine) (text keyword matchType : String) (caseSensitive : Bool),
      matchKeyword rx text keyword matchType caseSensitive =
        matchKeywordSpec rx text keyword matchType caseSensitive := by
  intro rx text keyword matchType caseSensitive
  unfold matchKeyword matchKeywordSpec specMode
  split_ifs <;> rfl

/-- C8: `findMatchingTrigger` returns the first trigger in stored order whose
keyword matches (it coincides with `List.find?` of the per-trigger match
test), a trigger without a keyword never matches, and on triggers
[T1 "price", T2 "cost"] with text "what is the cost" it selects T2. -/
theorem c8_first_matching_trigger :
    (∀ (rx : RegexEngine) (text : String) (ts : List Trigger),
        findMatchingTrigger rx text ts = ts.find? (triggerMatches rx text)) ∧
    (∀ (rx : RegexEngine) (text : String) (t : Trigger),
        t.keyword = none → triggerMatches rx text t = false) ∧
    findMatchingTrigger rxNone "what is the cost" [trigPrice, trigPlain] =
      some trigPlain := by
  refine ⟨?_, ?_, ?_⟩
  · intro rx text ts
    induction ts with
    | nil => rfl
    | cons t ts ih =>
      cases h : triggerMatches rx text t <;>
        simp [findMatchingTrigger, List.find?_cons, h, ih]
  · intro rx text t h
    simp [triggerMatches, h]
  · rfl

/-- Witness for C8 at concrete inputs: a keywordless trigger never matches. -/
theorem c8_witness :
    triggerMatches rxNone "what is the cost"
      { keyword := none, response := none
        config := { commentReply := none }, isActive := true } = false :=
  c8_first_matching_trigger.2.1 rxNone "what is the cost" _ rfl

/-- C9: every log written by `createLog` with status FAILED or SKIPPED has
action `skipped_comment`; a SUCCESS log has action `sent_dm` exactly when its
responseText contains the substring "DM" and `replied_comment` otherwise
(a null responseText counts as not containing "DM"). -/
theorem c9_createLog_action_field :
    (∀ (aId : String) (c : Comment) (status : Status) (rt : Option String)
        (msg : String) (now : Nat),
        status = Status.FAILED ∨ status = Status.SKIPPED →
        (createLog aId c status rt msg now).action = "skipped_comment") ∧
    (∀ (aId : String) (c : Comment) (rt : Option String) (msg : String) (now : Nat),
        (createLog aId c .SUCCESS rt msg now).action =
          if optContains rt "DM" then "sent_dm" else "replied_comment") := by
  constructor
  · rintro aId c status rt msg now (rfl | rfl) <;> rfl
  · intro aId c rt msg now
    rfl

/-- Witness for C9 at concrete inputs: a FAILED log gets `skipped_comment`. -/
theorem c9_witness :
    (createLog "a1" buyerComment .FAILED none "DM failed: boom" 150).action =
      "skipped_comment" :=
  c9_createLog_action_field.1 "a1" buyerComment .FAILED none "DM failed: boom" 150
    (Or.inl rfl)

/-- C5 (code bug): with `hourlyLimit = 1`, one SUCCESS log executed at 01:00
(minute 60) and the check running at 02:30 (minute 150), `checkLimits`
returns false although no SUCCESS log lies in the current clock hour
(the mutated `Date` makes the "hourly" window start at midnight); the
spec-worded limiter allows the execution. -/
theorem c5_hourly_window_is_day_window :
    checkLimits (mkAuto none (some 1) []) [successLogAt 60] 150 = false ∧
    countSuccessSince [successLogAt 60] "a1" (hourStart 150) = 0 ∧
    checkLimitsSpec (mkAuto none (some 1) []) [successLogAt 60] 150 = true := by
  refine ⟨rfl, rfl, rfl⟩

/-- C6 (code bug): with `dailyLimit = 0` and a matching comment,
`checkLimits` passes (JavaScript treats the 0 limit as falsy and skips the
check), so `processSingleComment` proceeds: it sends the DM, writes a
SUCCESS log for the pair and bumps the counters, instead of the claimed
"rate limit reached" outcome with no log, no counter change and no external
call. -/
theorem c6_daily_limit_zero_not_enforced :
    checkLimits (mkAuto (some 0) none [trigPlain]) [] 150 = true ∧
    (processSingleComment rxNone envOk ⟨mkAuto (some 0) none [trigPlain], []⟩
        buyerComment).1 =
      { processed := true, message := "Success: sent_dm"
        response := some "DM: Thanks buyer1, check your DMs!"
        actions := ["sent_dm"] } ∧
    (processSingleComment rxNone envOk ⟨mkAuto (some 0) none [trigPlain], []⟩
        buyerComment).2.2 =
      [.sendDM "u1" "Thanks buyer1, check your DMs!"] ∧
    countPairLogs
      (processSingleComment rxNone envOk ⟨mkAuto (some 0) none [trigPlain], []⟩
        buyerComment).2.1.logs "a1" "c1" = 1 ∧
    (processSingleComment rxNone envOk ⟨mkAuto (some 0) none [trigPlain], []⟩
        buyerComment).2.1.automation.totalExecutions = 1 := by
  refine ⟨rfl, rfl, rfl, rfl, rfl⟩

/-- C1 counterexample: an ACTIVE automation with `dailyLimit = 1` that has
already used its daily budget on another comment.  Both sequential
`processSingleComment` calls for the same (automation, comment) pair stop
with "Rate limit reached", attempt no external call — and the pair ends with
zero ExecutionLogs, not the claimed exactly one. -/
theorem c1_counterexample_rate_limited_pair_has_no_log :
    (processSingleComment rxNone envOk
        ⟨mkAuto (some 1) none [trigPlain], [successLogAt 60]⟩ buyerComment).1.message =
      "Rate limit reached" ∧
    (processSingleComment rxNone envOk
        ⟨mkAuto (some 1) none [trigPlain], [successLogAt 60]⟩ buyerComment).2.2 = [] ∧
    (processSingleComment rxNone envOk
        (processSingleComment rxNone envOk
          ⟨mkAuto (some 1) none [trigPlain], [successLogAt 60]⟩ buyerComment).2.1
        buyerComment).1.message = "Rate limit reached" ∧
    countPairLogs
      (processSingleComment rxNone envOk
        (processSingleComment rxNone envOk
          ⟨mkAuto (some 1) none [trigPlain], [successLogAt 60]⟩ buyerComment).2.1
        buyerComment).2.1.logs "a1" "c1" = 0 := by
  refine ⟨rfl, rfl, rfl, rfl⟩

/-- C3 counterexample: with a reply template configured, a failing DM call
and a succeeding reply call, `processSingleComment` reports overall SUCCESS
(`processed = true`), not the claimed FAILED. -/
theorem c3_counterexample_dm_fails_reply_succeeds :
    envDMFail.dmError = some "DM boom" ∧
    envDMFail.replyError = none ∧
    replyConfigured trigWithReply = true ∧
    (processSingleComment rxNone envDMFail ⟨mkAuto none none [trigWithReply], []⟩
        buyerComment).1.processed = true ∧
    (processSingleComment rxNone envDMFail ⟨mkAuto none none [trigWithReply], []⟩
        buyerComment).1.message = "Success: replied_comment" := by
  refine ⟨rfl, rfl, rfl, rfl, rfl⟩

/-- C4 counterexample: one single processing of one comment — DM succeeds,
the configured reply fails — writes two ExecutionLogs for the
(automationId, targetId) pair, not the claimed exactly one. -/
theorem c4_counterexample_two_logs_for_one_comment :
    countPairLogs
      (processSingleComment rxNone envReplyFail ⟨mkAuto none none [trigWithReply], []⟩
        buyerComment).2.1.logs "a1" "c1" = 2 := by
  rfl

theorem processSingleComment_guarded (rx : RegexEngine) (env : Env) (db : DB)
    (c : Comment) (trig : Trigger)
    (hA : db.automation.status = "ACTIVE")
    (hL : hasPairLog db.logs db.automation.id c.id = false)
    (hM : findMatchingTrigger rx c.text (activeTriggers db.automation) = some trig)
    (hC : checkLimits db.automation db.logs env.now = true) :
    processSingleComment rx env db c = dualAction env db c trig := by
  simp [processSingleComment, hA, hL, hM, hC]

theorem dmStep_automation (env : Env) (db : DB) (c : Comment) (trig : Trigger) :
    (dmStep env db c trig).db.automation = db.automation := by
  cases hg : (generateResponse env trig c db.automation.userPlan).1 with
  | error e => simp [dmStep, hg, addLog]
  | ok t => cases hd : env.dmError <;> simp [dmStep, hg, hd, addLog]

theorem replyStep_automation (env : Env) (c : Comment) (trig : Trigger)
    (aId : String) (s : DualState) :
    (replyStep env c trig aId s).db.automation = s.db.automation := by
  cases hr : replyConfigured trig with
  | false => simp [replyStep, hr]
  | true => cases he : env.replyError <;> simp [replyStep, hr, he, addLog]

theorem dualAction_automation_id_status (env : Env) (db : DB) (c : Comment)
    (trig : Trigger) :
    (dualAction env db c trig).2.1.automation.id = db.automation.id ∧
    (dualAction env db c trig).2.1.automation.status = db.automation.status := by
  have hS : (replyStep env c trig db.automation.id (dmStep env db c trig)).db.automation
      = db.automation := by
    rw [replyStep_automation, dmStep_automation]
  simp only [dualAction]
  split
  · rw [updateAutomationStats_id, updateAutomationStats_status, hS]
    exact ⟨rfl, rfl⟩
  · rw [updateAutomationStats_id, updateAutomationStats_status,
      addLog_automation, hS]
    exact ⟨rfl, rfl⟩

theorem processSingleComment_automation_id_status (rx : RegexEngine) (env : Env)
    (db : DB) (c : Comment) :
    (processSingleComment rx env db c).2.1.automation.id = db.automation.id ∧
    (processSingleComment rx env db c).2.1.automation.status = db.automation.status := by
  simp only [processSingleComment]
  split
  · exact ⟨rfl, rfl⟩
  split
  · exact ⟨rfl, rfl⟩
  split
  · exact ⟨rfl, rfl⟩
  split
  · exact ⟨rfl, rfl⟩
  · exact dualAction_automation_id_status env db c _

/-- C1 (amended): for an ACTIVE automation, a `processSingleComment` call
finding an existing ExecutionLog for (automationId, comment.id) returns
`processed = false` with message "Already processed", performs no external
call, writes no log and leaves the automation row (all counters and
`lastExecutedAt`) unchanged; consequently, whenever the first of two
sequential calls with an identical pair leaves at least one log for the
pair, the second call is such a no-op — only the first call performs any
external side effect.  (The original "exactly one ExecutionLog" consequent
fails when the first call itself writes no log, e.g. when rate-limited.) -/
theorem c1_idempotency_guard :
    (∀ (rx : RegexEngine) (env : Env) (db : DB) (c : Comment),
        db.automation.status = "ACTIVE" →
        hasPairLog db.logs db.automation.id c.id = true →
        processSingleComment rx env db c =
          ({ processed := false, message := "Already processed" }, db, [])) ∧
    (∀ (rx : RegexEngine) (env1 env2 : Env) (db : DB) (c : Comment),
        db.automation.status = "ACTIVE" →
        hasPairLog (processSingleComment rx env1 db c).2.1.logs
          db.automation.id c.id = true →
        processSingleComment rx env2 (processSingleComment rx env1 db c).2.1 c =
          ({ processed := false, message := "Already processed" },
            (processSingleComment rx env1 db c).2.1, [])) := by
  have guard : ∀ (rx : RegexEngine) (env : Env) (db : DB) (c : Comment),
      db.automation.status = "ACTIVE" →
      hasPairLog db.logs db.automation.id c.id = true →
      processSingleComment rx env db c =
        ({ processed := false, message := "Already processed" }, db, []) := by
    intro rx env db c hA hL
    simp [processSingleComment, hA, hL]
  refine ⟨guard, ?_⟩
  intro rx env1 env2 db c hA hL
  have hid := (processSingleComment_automation_id_status rx env1 db c).1
  have hst := (processSingleComment_automation_id_status rx env1 db c).2
  exact guard rx env2 _ c (by rw [hst, hA]) (by rw [hid]; exact hL)

/-- Witness for C1 at concrete inputs: a second call on a pair already
logged by a successful first call is a pure no-op. -/
theorem c1_witness :
    processSingleComment rxNone envOk
      (processSingleComment rxNone envOk ⟨mkAuto none none [trigPlain], []⟩
        buyerComment).2.1 buyerComment =
      ({ processed := false, message := "Already processed" },
        (processSingleComment rxNone envOk ⟨mkAuto none none [trigPlain], []⟩
          buyerComment).2.1, []) :=
  c1_idempotency_guard.2 rxNone envOk envOk ⟨mkAuto none none [trigPlain], []⟩
    buyerComment rfl rfl

/-- C2: once the idempotency, keyword-match and rate-limit checks pass, the
overall outcome of `processSingleComment` is success exactly when at least
one of the two attempted actions succeeded: the mandatory DM (response
resolution plus send) or the optional configured comment reply.  In
particular an unrecoverable error before any action (e.g. no Response
configured) gives a failed outcome unless the configured reply succeeds,
and with no reply configured the outcome is FAILED. -/
theorem c2_outcome_iff_some_action_succeeded :
    ∀ (rx : RegexEngine) (env : Env) (db : DB) (c : Comment) (trig : Trigger),
      db.automation.status = "ACTIVE" →
      hasPairLog db.logs db.automation.id c.id = false →
      findMatchingTrigger rx c.text (activeTriggers db.automation) = some trig →
      checkLimits db.automation db.logs env.now = true →
      (processSingleComment rx env db c).1.processed =
        (dmSucceeds env trig c db.automation.userPlan ||
          (replyConfigured trig && env.replyError.isNone)) := by
  intro rx env db c trig hA hL hM hC
  rw [processSingleComment_guarded rx env db c trig hA hL hM hC]
  unfold dualAction dmSucceeds
  cases hg : (generateResponse env trig c db.automation.userPlan).1 with
  | error e =>
    cases hr : replyConfigured trig with
    | false => simp [dmStep, replyStep, hg, hr]
    | true =>
      cases he : env.replyError <;> simp [dmStep, replyStep, hg, hr, he]
  | ok t =>
    cases hd : env.dmError with
    | none =>
      cases hr : replyConfigured trig with
      | false => simp [dmStep, replyStep, hg, hd, hr]
      | true =>
        cases he : env.replyError <;> simp [dmStep, replyStep, hg, hd, hr, he]
    | some de =>
      cases hr : replyConfigured trig with
      | false => simp [dmStep, replyStep, hg, hd, hr]
      | true =>
        cases he : env.replyError <;> simp [dmStep, replyStep, hg, hd, hr, he]

/-- Witness for C2 at concrete inputs: the spec's end-to-end scenario, where
the DM succeeds. -/
theorem c2_witness :
    (processSingleComment rxNone envOk ⟨mkAuto none none [trigPlain], []⟩
        buyerComment).1.processed =
      (dmSucceeds envOk trigPlain buyerComment "FREE" ||
        (replyConfigured trigPlain && envOk.replyError.isNone)) :=
  c2_outcome_iff_some_action_succeeded rxNone envOk
    ⟨mkAuto none none [trigPlain], []⟩ buyerComment trigPlain rfl rfl rfl rfl

/-- C3 (amended): on a matched trigger whose config carries a non-empty
reply template, after the guards pass: if the DM action fails and the reply
call succeeds, the overall outcome is SUCCESS (`processed = true`) and the
DM failure is recorded as a FAILED log row for the comment; if the DM
succeeds and the reply call fails, the overall outcome is SUCCESS with the
reply failure noted in a SUCCESS log row whose message is
"Comment reply failed: <error> (DM sent successfully)". -/
theorem c3_dual_action_outcomes :
    ∀ (rx : RegexEngine) (env : Env) (db : DB) (c : Comment) (trig : Trigger),
      db.automation.status = "ACTIVE" →
      hasPairLog db.logs db.automation.id c.id = false →
      findMatchingTrigger rx c.text (activeTriggers db.automation) = some trig →
      checkLimits db.automation db.logs env.now = true →
      replyConfigured trig = true →
      ((dmSucceeds env trig c db.automation.userPlan = false →
        env.replyError = none →
        (processSingleComment rx env db c).1.processed = true ∧
        ((processSingleComment rx env db c).2.1.logs.any fun l =>
          l.targetId == c.id && l.status == Status.FAILED) = true) ∧
      (∀ e : String, dmSucceeds env trig c db.automation.userPlan = true →
        env.replyError = some e →
        (processSingleComment rx env db c).1.processed = true ∧
        ((processSingleComment rx env db c).2.1.logs.any fun l =>
          l.targetId == c.id && l.status == Status.SUCCESS &&
          l.message == ("Comment reply failed: " ++ e ++ " (DM sent successfully)")) = true)) := by
  intro rx env db c trig hA hL hM hC hR
  rw [processSingleComment_guarded rx env db c trig hA hL hM hC]
  constructor
  · intro hF hRep
    unfold dmSucceeds at hF
    cases hg : (generateResponse env trig c db.automation.userPlan).1 with
    | error e =>
      constructor <;>
        simp [dualAction, dmStep, replyStep, hg, hR, hRep, addLog,
          updateAutomationStats, createLog, List.any_append]
    | ok t =>
      rw [hg] at hF
      cases hd : env.dmError with
      | none => rw [hd] at hF; simp at hF
      | some de =>
        constructor <;>
          simp [dualAction, dmStep, replyStep, hg, hd, hR, hRep, addLog,
            updateAutomationStats, createLog, List.any_append]
  · intro e hT hRep
    unfold dmSucceeds at hT
    cases hg : (generateResponse env trig c db.automation.userPlan).1 with
    | error e2 => rw [hg] at hT; simp at hT
    | ok t =>
      rw [hg] at hT
      cases hd : env.dmError with
      | some de => rw [hd] at hT; simp at hT
      | none =>
        constructor <;>
          simp [dualAction, dmStep, replyStep, hg, hd, hR, hRep, addLog,
            updateAutomationStats, createLog, List.any_append]

/-- Witness for C3 at concrete inputs: DM throws, the configured reply
succeeds, and the run is reported as success. -/
theorem c3_witness :
    (processSingleComment rxNone envDMFail ⟨mkAuto none none [trigWithReply], []⟩
        buyerComment).1.processed = true :=
  ((c3_dual_action_outcomes rxNone envDMFail ⟨mkAuto none none [trigWithReply], []⟩
      buyerComment trigWithReply rfl rfl rfl rfl rfl).1 rfl rfl).1

/-- C4 (amended): after the idempotency guard has passed, a single
processing of a comment by `processSingleComment` writes, for the pair
(automationId, comment.id): exactly one ExecutionLog on every path where the
dual action runs without a partial failure (and exactly one SKIPPED log on
the no-keyword-match path), but two ExecutionLogs whenever a configured
reply is attempted and the DM action or the reply call fails — and zero logs
on the rate-limited path. -/
theorem c4_log_count_per_path :
    (∀ (rx : RegexEngine) (env : Env) (db : DB) (c : Comment) (trig : Trigger),
        db.automation.status = "ACTIVE" →
        hasPairLog db.logs db.automation.id c.id = false →
        findMatchingTrigger rx c.text (activeTriggers db.automation) = some trig →
        checkLimits db.automation db.logs env.now = true →
        countPairLogs (processSingleComment rx env db c).2.1.logs
            db.automation.id c.id =
          1 + (if replyConfigured trig &&
                (!dmSucceeds env trig c db.automation.userPlan || env.replyError.isSome)
              then 1 else 0)) ∧
    (∀ (rx : RegexEngine) (env : Env) (db : DB) (c : Comment),
        db.automation.status = "ACTIVE" →
        hasPairLog db.logs db.automation.id c.id = false →
        findMatchingTrigger rx c.text (activeTriggers db.automation) = none →
        countPairLogs (processSingleComment rx env db c).2.1.logs
          db.automation.id c.id = 1) ∧
    (∀ (rx : RegexEngine) (env : Env) (db : DB) (c : Comment) (trig : Trigger),
        db.automation.status = "ACTIVE" →
        hasPairLog db.logs db.automation.id c.id = false →
        findMatchingTrigger rx c.text (activeTriggers db.automation) = some trig →
        checkLimits db.automation db.logs env.now = false →
        countPairLogs (processSingleComment rx env db c).2.1.logs
          db.automation.id c.id = 0) := by
  refine ⟨?_, ?_, ?_⟩
  · intro rx env db c trig hA hL hM hC
    have h0 : countPairLogs db.logs db.automation.id c.id = 0 :=
      countPairLogs_eq_zero _ _ _ hL
    rw [processSingleComment_guarded rx env db c trig hA hL hM hC]
    unfold dualAction dmSucceeds
    cases hg : (generateResponse env trig c db.automation.userPlan).1 with
    | error e =>
      cases hr : replyConfigured trig with
      | false =>
        simp [dmStep, replyStep, hg, hr, addLog, updateAutomationStats,
          createLog, countPairLogs_append, countPairLogs_cons, countPairLogs_nil, h0]
      | true =>
        cases he : env.replyError <;>
          simp [dmStep, replyStep, hg, hr, he, addLog, updateAutomationStats,
            createLog, countPairLogs_append, countPairLogs_cons, countPairLogs_nil, h0]
    | ok t =>
      cases hd : env.dmError with
      | none =>
        cases hr : replyConfigured trig with
        | false =>
          simp [dmStep, replyStep, hg, hd, hr, addLog, updateAutomationStats,
            createLog, countPairLogs_append, countPairLogs_cons, countPairLogs_nil, h0]
        | true =>
          cases he : env.replyError <;>
            simp [dmStep, replyStep, hg, hd, hr, he, addLog, updateAutomationStats,
              createLog, countPairLogs_append, countPairLogs_cons, countPairLogs_nil, h0]
      | some de =>
        cases hr : replyConfigured trig with
        | false =>
          simp [dmStep, replyStep, hg, hd, hr, addLog, updateAutomationStats,
            createLog, countPairLogs_append, countPairLogs_cons, countPairLogs_nil, h0]
        | true =>
          cases he : env.replyError <;>
            simp [dmStep, replyStep, hg, hd, hr, he, addLog, updateAutomationStats,
              createLog, countPairLogs_append, countPairLogs_cons, countPairLogs_nil, h0]
  · intro rx env db c hA hL hM
    have h0 : countPairLogs db.logs db.automation.id c.id = 0 :=
      countPairLogs_eq_zero _ _ _ hL
    simp [processSingleComment, hA, hL, hM, addLog, updateAutomationStats,
      createLog, countPairLogs_append, countPairLogs_cons, countPairLogs_nil, h0]
  · intro rx env db c trig hA hL hM hC
    have h0 : countPairLogs db.logs db.automation.id c.id = 0 :=
      countPairLogs_eq_zero _ _ _ hL
    simp [processSingleComment, hA, hL, hM, hC, h0]

/-- Witness for C4 at concrete inputs: the clean DM-only success path writes
exactly one log row for the pair. -/
theorem c4_witness :
    countPairLogs
      (processSingleComment rxNone envOk ⟨mkAuto none none [trigPlain], []⟩
        buyerComment).2.1.logs "a1" "c1" =
      1 + (if replyConfigured trigPlain &&
            (!dmSucceeds envOk trigPlain buyerComment "FREE" || envOk.replyError.isSome)
          then 1 else 0) :=
  c4_log_count_per_path.1 rxNone envOk ⟨mkAuto none none [trigPlain], []⟩
    buyerComment trigPlain rfl rfl rfl rfl

theorem dmLoopStep_processed_eq_successful (rx : RegexEngine) (s : LoopState)
    (item : Comment × Env) (h : s.processed = s.successful) :
    (dmLoopStep rx s item).processed = (dmLoopStep rx s item).successful := by
  rcases item with ⟨c, env⟩
  unfold dmLoopStep
  cases hp : hasPairLog s.db.logs s.db.automation.id c.id with
  | true => simp [hp, h]
  | false =>
    cases hm : findMatchingTrigger rx c.text (activeTriggers s.db.automation) with
    | none => simp [hp, hm, h]
    | some trig =>
      cases hg : (generateResponse env trig c s.db.automation.userPlan).1 with
      | error e => simp [hp, hm, hg, h]
      | ok t => cases hd : env.dmError <;> simp [hp, hm, hg, hd, h]

theorem replyLoopStep_processed_eq_successful (rx : RegexEngine) (s : LoopState)
    (item : Comment × Env) (h : s.processed = s.successful) :
    (replyLoopStep rx s item).processed = (replyLoopStep rx s item).successful := by
  rcases item with ⟨c, env⟩
  unfold replyLoopStep
  cases hp : hasPairLog s.db.logs s.db.automation.id c.id with
  | true => simp [hp, h]
  | false =>
    cases hm : findMatchingTrigger rx c.text (activeTriggers s.db.automation) with
    | none => simp [hp, hm, h]
    | some trig =>
      cases hg : (generateResponse env trig c s.db.automation.userPlan).1 with
      | error e => simp [hp, hm, hg, h]
      | ok t => cases hd : env.replyError <;> simp [hp, hm, hg, hd, h]

theorem foldl_dmLoopStep_pres (rx : RegexEngine) (items : List (Comment × Env)) :
    ∀ s : LoopState, s.processed = s.successful →
      (items.foldl (dmLoopStep rx) s).processed =
        (items.foldl (dmLoopStep rx) s).successful := by
  induction items with
  | nil => intro s h; exact h
  | cons it its ih =>
    intro s h
    exact ih _ (dmLoopStep_processed_eq_successful rx s it h)

theorem foldl_replyLoopStep_pres (rx : RegexEngine) (items : List (Comment × Env)) :
    ∀ s : LoopState, s.processed = s.successful →
      (items.foldl (replyLoopStep rx) s).processed =
        (items.foldl (replyLoopStep rx) s).successful := by
  induction items with
  | nil => intro s h; exact h
  | cons it its ih =>
    intro s h
    exact ih _ (replyLoopStep_processed_eq_successful rx s it h)

/-- C10: both batch runs return counters with `processed = successful` (a
comment only counts as processed on its full success path), and a comment
whose processing throws — response generation or the external send failing —
increments only `failed`, leaving `processed` and `successful` untouched, in
either loop. -/
theorem c10_processed_eq_successful :
    (∀ (rx : RegexEngine) (now : Nat) (db : DB) (items : List (Comment × Env)),
        (processCommentToDMAutomation rx now db items).1.processed =
          (processCommentToDMAutomation rx now db items).1.successful) ∧
    (∀ (rx : RegexEngine) (now : Nat) (db : DB) (items : List (Comment × Env)),
        (processCommentReplyAutomation rx now db items).1.processed =
          (processCommentReplyAutomation rx now db items).1.successful) ∧
    (∀ (rx : RegexEngine) (s : LoopState) (c : Comment) (env : Env) (trig : Trigger),
        hasPairLog s.db.logs s.db.automation.id c.id = false →
        findMatchingTrigger rx c.text (activeTriggers s.db.automation) = some trig →
        dmSucceeds env trig c s.db.automation.userPlan = false →
        (dmLoopStep rx s (c, env)).failed = s.failed + 1 ∧
        (dmLoopStep rx s (c, env)).processed = s.processed ∧
        (dmLoopStep rx s (c, env)).successful = s.successful) ∧
    (∀ (rx : RegexEngine) (s : LoopState) (c : Comment) (env : Env) (trig : Trigger),
        hasPairLog s.db.logs s.db.automation.id c.id = false →
        findMatchingTrigger rx c.text (activeTriggers s.db.automation) = some trig →
        replyCallSucceeds env trig c s.db.automation.userPlan = false →
        (replyLoopStep rx s (c, env)).failed = s.failed + 1 ∧
        (replyLoopStep rx s (c, env)).processed = s.processed ∧
        (replyLoopStep rx s (c, env)).successful = s.successful) := by
  refine ⟨?_, ?_, ?_, ?_⟩
  · intro rx now db items
    cases h1 : (db.automation.status != "ACTIVE") with
    | true => simp [processCommentToDMAutomation, h1]
    | false =>
      cases h2 : checkLimits db.automation db.logs now with
      | false => simp [processCommentToDMAutomation, h1, h2]
      | true =>
        simp only [processCommentToDMAutomation, h1, h2, Bool.not_true,
          Bool.false_eq_true, if_false]
        exact foldl_dmLoopStep_pres rx items _ rfl
  · intro rx now db items
    cases h1 : (db.automation.status != "ACTIVE") with
    | true => simp [processCommentReplyAutomation, h1]
    | false =>
      cases h2 : checkLimits db.automation db.logs now with
      | false => simp [processCommentReplyAutomation, h1, h2]
      | true =>
        simp only [processCommentReplyAutomation, h1, h2, Bool.not_true,
          Bool.false_eq_true, if_false]
        exact foldl_replyLoopStep_pres rx items _ rfl
  · intro rx s c env trig hp hm hF
    unfold dmSucceeds at hF
    cases hg : (generateResponse env trig c s.db.automation.userPlan).1 with
    | error e => simp [dmLoopStep, hp, hm, hg]
    | ok t =>
      rw [hg] at hF
      cases hd : env.dmError with
      | none => rw [hd] at hF; simp at hF
      | some de => simp [dmLoopStep, hp, hm, hg, hd]
  · intro rx s c env trig hp hm hF
    unfold replyCallSucceeds at hF
    cases hg : (generateResponse env trig c s.db.automation.userPlan).1 with
    | error e => simp [replyLoopStep, hp, hm, hg]
    | ok t =>
      rw [hg] at hF
      cases hd : env.replyError with
      | none => rw [hd] at hF; simp at hF
      | some de => simp [replyLoopStep, hp, hm, hg, hd]

/-- Witness for C10 at concrete inputs: a comment whose DM send throws bumps
only the failed counter. -/
theorem c10_witness :
    (dmLoopStep rxNone
        { db := ⟨mkAuto none none [trigPlain], []⟩, calls := []
          processed := 0, successful := 0, failed := 0 }
        (buyerComment, envDMFail)).failed = 0 + 1 ∧
    (dmLoopStep rxNone
        { db := ⟨mkAuto none none [trigPlain], []⟩, calls := []
          processed := 0, successful := 0, failed := 0 }
        (buyerComment, envDMFail)).processed = 0 ∧
    (dmLoopStep rxNone
        { db := ⟨mkAuto none none [trigPlain], []⟩, calls := []
          processed := 0, successful := 0, failed := 0 }
        (buyerComment, envDMFail)).successful = 0 :=
  c10_processed_eq_successful.2.2.1 rxNone
    { db := ⟨mkAuto none none [trigPlain], []⟩, calls := []
      processed := 0, successful := 0, failed := 0 }
    buyerComment envDMFail trigPlain rfl rfl rfl

end Replion
